import Mathlib

/-!
# Verification of the Deutsch Leseecke server (`src/server.js`)

A shallow embedding of the request handlers and data-access functions of
`server.js`, together with proofs about the story-authoring workflow, the
single-question workflow, the listing queries, the login handler and the
access-policy gates.

Conventions of the embedding:
* the MySQL database is a record of row lists plus auto-increment counters;
  `INSERT` appends a row and bumps the counter, `SELECT ... ORDER BY` is an
  insertion sort of the (filtered) row list by the query's key;
* JavaScript strings are Lean `String`s; `Number.parseInt(s, 10)` becomes
  `parseIntJS : String → Option Int`, `none` standing for `NaN`;
* a request body parsed by multer is a flat association list of
  field-name/value pairs (multer does not nest bracketed field names), and
  the uploaded files are a list of fieldname/filename pairs;
* the transaction of `POST /stories` is modelled by staging the inserts on a
  copy of the database and returning the original database when any insert
  fails (`connection.rollback()`); which insert fails is an oracle parameter.
-/

/-- Whitespace removed by JavaScript `String.prototype.trim`
    (ASCII subset; the handlers only ever compare against `""`). -/
def isJsSpace (c : Char) : Bool :=
  c = ' ' || c = '\t' || c = '\n' || c = '\r' || c = '\x0b' || c = '\x0c'

/-- JavaScript `value.trim()`. -/
def jsTrim (s : String) : String :=
  ⟨(s.toList.dropWhile isJsSpace).reverse.dropWhile isJsSpace |>.reverse⟩

/-- JavaScript `value.toUpperCase()` (ASCII). -/
def jsUpper (s : String) : String :=
  ⟨s.toList.map Char.toUpper⟩

/-- JavaScript `value.toLowerCase()` (ASCII). -/
def jsLower (s : String) : String :=
  ⟨s.toList.map Char.toLower⟩

/-- Strip an expected literal from the front of a character list
    (used to implement the anchored regex patterns of `parseStoryQuestions`). -/
def dropLit : List Char → List Char → Option (List Char)
  | [], rest => some rest
  | _ :: _, [] => none
  | p :: ps, c :: cs => if c = p then dropLit ps cs else none

/-- Maximal run of decimal digits at the front (the `\d+` of the patterns). -/
def takeDigits : List Char → List Char × List Char
  | [] => ([], [])
  | c :: cs =>
    if c.isDigit then
      let r := takeDigits cs
      (c :: r.1, r.2)
    else ([], c :: cs)

/-- Numeric value of a digit string (`Number.parseInt` on a `\d+` capture). -/
def digitsToNat (ds : List Char) : Nat :=
  ds.foldl (fun n c => n * 10 + (c.toNat - '0'.toNat)) 0

/-- JavaScript `Number.parseInt(s, 10)`: skip leading whitespace, optional
    sign, then a maximal digit run; `NaN` (here `none`) when no digit. -/
def parseIntJS (s : String) : Option Int :=
  match s.toList.dropWhile isJsSpace with
  | '-' :: rest =>
    let ds := (takeDigits rest).1
    if ds = [] then none else some (-(digitsToNat ds : Int))
  | '+' :: rest =>
    let ds := (takeDigits rest).1
    if ds = [] then none else some (digitsToNat ds : Int)
  | cs =>
    let ds := (takeDigits cs).1
    if ds = [] then none else some (digitsToNat ds : Int)

/-- Match `^questions\[(\d+)\]` followed exactly by `post`, returning the
    captured index. -/
def matchIndexed (post : List Char) (s : List Char) : Option Nat :=
  match dropLit "questions[".toList s with
  | none => none
  | some rest =>
    let p := takeDigits rest
    if p.1 = [] then none
    else if p.2 = post then some (digitsToNat p.1) else none

/-- `^questions\[(\d+)\]\[prompt\]$`. -/
def matchPrompt (s : String) : Option Nat :=
  matchIndexed "][prompt]".toList s.toList

/-- `^questions\[(\d+)\]\[correctIndex\]$`. -/
def matchCorrect (s : String) : Option Nat :=
  matchIndexed "][correctIndex]".toList s.toList

/-- `^questions\[(\d+)\]\[audio\]$` (file field names). -/
def matchAudio (s : String) : Option Nat :=
  matchIndexed "][audio]".toList s.toList

/-- `^questions\[(\d+)\]\[answers\]\[(\d+)\]$`. -/
def matchAnswer (s : String) : Option (Nat × Nat) :=
  match dropLit "questions[".toList s.toList with
  | none => none
  | some rest =>
    let p := takeDigits rest
    if p.1 = [] then none
    else
      match dropLit "][answers][".toList p.2 with
      | none => none
      | some rest2 =>
        let q := takeDigits rest2
        if q.1 = [] then none
        else if q.2 = [']'] then some (digitsToNat p.1, digitsToNat q.1)
        else none

/-- A candidate question assembled by `parseStoryQuestions`.
    `correctIndex = none` models the JavaScript `NaN`. -/
structure ParsedQuestion where
  prompt : String
  answers : List String
  correctIndex : Option Int
  file : Option String
deriving DecidableEq, Repr

/-- The fresh entry created by `ensureQuestion`. -/
def emptyQuestion : ParsedQuestion :=
  { prompt := "", answers := ["", "", "", ""], correctIndex := some 0, file := none }

/-- The insertion-ordered `questionMap` of `parseStoryQuestions`. -/
abbrev QMap := List (Nat × ParsedQuestion)

/-- `ensureQuestion(index)`: add a fresh entry unless the key is present. -/
def ensureQ (m : QMap) (i : Nat) : QMap :=
  if (List.any m (fun e => e.1 = i)) then m else m ++ [(i, emptyQuestion)]

/-- Update the entry at key `i` in place. -/
def updateQ (m : QMap) (i : Nat) (f : ParsedQuestion → ParsedQuestion) : QMap :=
  List.map (fun e => if e.1 = i then (e.1, f e.2) else e) m

/-- One iteration of the `for (const [field, value] of Object.entries(body))`
    loop of `parseStoryQuestions`. -/
def applyBodyField (m : QMap) (field value : String) : QMap :=
  match matchPrompt field with
  | some i => updateQ (ensureQ m i) i (fun q => { q with prompt := jsTrim value })
  | none =>
  match matchCorrect field with
  | some i => updateQ (ensureQ m i) i (fun q => { q with correctIndex := parseIntJS value })
  | none =>
  match matchAnswer field with
  | some p =>
    updateQ (ensureQ m p.1) p.1
      (fun q => if p.2 < 4 then { q with answers := q.answers.set p.2 (jsTrim value) } else q)
  | none => m

/-- One iteration of the `for (const file of files || [])` loop: the pair is
    `(file.fieldname, file.filename)`. -/
def applyFileField (m : QMap) (fieldname filename : String) : QMap :=
  match matchAudio fieldname with
  | some i => updateQ (ensureQ m i) i (fun q => { q with file := some filename })
  | none => m

/-- The fully built `questionMap`, in insertion order. -/
def buildQuestionMap (body : List (String × String)) (files : List (String × String)) : QMap :=
  List.foldl (fun m f => applyFileField m f.1 f.2)
    (List.foldl (fun m fv => applyBodyField m fv.1 fv.2) ([] : QMap) body)
    files

/-- `Array.from(questionMap.entries()).sort((a, b) => a[0] - b[0])`. -/
def entryLe (a b : Nat × ParsedQuestion) : Prop := a.1 ≤ b.1

instance : DecidableRel entryLe := fun a b => Nat.decLe a.1 b.1

instance : IsTotal (Nat × ParsedQuestion) entryLe := ⟨fun a b => Nat.le_total a.1 b.1⟩

instance : IsTrans (Nat × ParsedQuestion) entryLe := ⟨fun _ _ _ => Nat.le_trans⟩

/-- The sorted `questionMap` entries, keys still attached. -/
def sortedEntries (body files : List (String × String)) : QMap :=
  List.insertionSort entryLe (buildQuestionMap body files)

/-- The sorted candidate questions, before the blank-row filter. -/
def sortedCandidates (body files : List (String × String)) : List ParsedQuestion :=
  List.map (fun e => e.2) (sortedEntries body files)

/-- The blank-row filter: `Boolean(question.prompt) || answers.some(Boolean)`. -/
def keepQuestion (q : ParsedQuestion) : Bool :=
  (q.prompt != "") || q.answers.any (fun a => a != "")

/-- `parseStoryQuestions(body, files)` from `server.js`. -/
def parseStoryQuestions (body files : List (String × String)) : List ParsedQuestion :=
  List.filter keepQuestion (sortedCandidates body files)

/-- A row of the `stories` table. -/
structure StoryRow where
  id : Nat
  title : String
  level : String
  summary : String
  body : String
  authorId : Nat
  createdAt : Nat
deriving DecidableEq, Repr

/-- A row of the `questions` table. `correctIndex = none` models the driver
    being handed the JavaScript `NaN` (validation prevents this on every
    reachable insert). -/
structure QuestionRow where
  id : Nat
  storyId : Nat
  answerA : String
  answerB : String
  answerC : String
  answerD : String
  prompt : String
  correctIndex : Option Int
  audioPath : Option String
  authorId : Nat
  createdAt : Nat
deriving DecidableEq, Repr

/-- A row of the `vocabulary_entries` table. -/
structure VocabRow where
  id : Nat
  term : String
  translation : String
  exampleSentence : Option String
  authorId : Nat
  createdAt : Nat
deriving DecidableEq, Repr

/-- A row of the `grammar_topics` table. -/
structure GrammarRow where
  id : Nat
  title : String
  explanation : String
  authorId : Nat
  createdAt : Nat
deriving DecidableEq, Repr

/-- The relational state the handlers touch, plus auto-increment counters. -/
structure DB where
  stories : List StoryRow
  questions : List QuestionRow
  vocab : List VocabRow
  grammar : List GrammarRow
  nextStoryId : Nat
  nextQuestionId : Nat
deriving DecidableEq, Repr

/-- `STORY_LEVELS`. -/
def storyLevels : List String := ["A1", "A2", "B1", "B2", "C1", "C2"]

/-- `req.body.<key> || ""` for a flat multer-parsed body. -/
def getField (body : List (String × String)) (key : String) : String :=
  match List.find? (fun fv => fv.1 = key) body with
  | some fv => fv.2
  | none => ""

/-- The `values` object of the `POST /stories` handler. -/
structure FormValues where
  title : String
  level : String
  summary : String
  body : String
  questions : List ParsedQuestion
deriving DecidableEq, Repr

/-- The initial `values` object (lines 340-346 of `server.js`). -/
def emptyStoryValues : FormValues :=
  { title := "", level := "A1", summary := "", body := "", questions := [] }

/-- The `values` object after the trimming assignments (lines 373-377). -/
def storyValues (body files : List (String × String)) : FormValues :=
  { title := jsTrim (getField body "title")
    level := jsUpper (jsTrim (getField body "level"))
    summary := jsTrim (getField body "summary")
    body := jsTrim (getField body "body")
    questions := parseStoryQuestions body files }

/-- A response of the `POST /stories` handler: `renderForm` with a status and
    error message and the `values` object, or a redirect. -/
inductive HResp where
  | render (status : Nat) (error : String) (values : FormValues)
  | redirect (location : String)
deriving DecidableEq, Repr

/-- The HTTP status of a rendered response (`none` for a redirect). -/
def HResp.statusOf : HResp → Option Nat
  | .render s _ _ => some s
  | .redirect _ => none

/-- The `values` object handed to the re-rendered form (`none` for a redirect). -/
def HResp.valuesOf : HResp → Option FormValues
  | .render _ _ v => some v
  | .redirect _ => none

/-- The correct-index validation condition (lines 398-402 and 587):
    `Number.isNaN(ci) || ci < 0 || ci > 3`. -/
def invalidCorrectIndex : Option Int → Bool
  | none => true
  | some v => v < 0 || v > 3

/-- The per-question validation of the `for (const question of values.questions)`
    loop (lines 389-409), returning the first applicable error message. -/
def questionError (q : ParsedQuestion) : Option String :=
  if (q.prompt == "") || q.answers.any (fun a => a == "") then
    some "Each question must include a prompt and four answers."
  else if invalidCorrectIndex q.correctIndex then
    some "Select which answer is correct for each question."
  else none

/-- First validation error over the surviving questions, in order. -/
def firstQuestionError : List ParsedQuestion → Option String
  | [] => none
  | q :: qs =>
    match questionError q with
    | some msg => some msg
    | none => firstQuestionError qs

/-- The sequential early-return validation of `POST /stories`
    (lines 379-409), as the first applicable error message. -/
def storyFieldsError (v : FormValues) : Option String :=
  if (v.title == "") || (v.summary == "") || (v.body == "") then
    some "Please fill in all required fields."
  else if !(storyLevels.contains v.level) then
    some "Please choose a valid level (A1–C2)."
  else firstQuestionError v.questions

/-- The row built by `createStory` (lines 152-159). -/
def mkStoryRow (sid now uid : Nat) (v : FormValues) : StoryRow :=
  { id := sid, title := v.title, level := v.level, summary := v.summary,
    body := v.body, authorId := uid, createdAt := now }

/-- `createStory`: append the row, return the insert id. -/
def insertStoryRow (db : DB) (now uid : Nat) (v : FormValues) : Nat × DB :=
  (db.nextStoryId,
   { db with
     stories := db.stories ++ [mkStoryRow db.nextStoryId now uid v]
     nextStoryId := db.nextStoryId + 1 })

/-- The row built by `createQuestion` (lines 161-181) for one parsed question. -/
def mkQuestionRow (id storyId now uid : Nat) (q : ParsedQuestion) : QuestionRow :=
  { id := id, storyId := storyId, prompt := q.prompt
    answerA := q.answers.getD 0 "", answerB := q.answers.getD 1 ""
    answerC := q.answers.getD 2 "", answerD := q.answers.getD 3 ""
    correctIndex := q.correctIndex
    audioPath := q.file.map (fun f => "uploads/questions/" ++ f)
    authorId := uid, createdAt := now }

/-- `createQuestion` inside the transaction: append the row, bump the counter. -/
def insertQuestionRow (db : DB) (now uid sid : Nat) (q : ParsedQuestion) : DB :=
  { db with
    questions := db.questions ++ [mkQuestionRow db.nextQuestionId sid now uid q]
    nextQuestionId := db.nextQuestionId + 1 }

/-- The `for (const question of values.questions)` insert loop inside the
    transaction. `oracle k = true` means the `k`-th `execute` inside the
    transaction throws; `none` is the rolled-back (thrown) outcome. -/
def insertQuestionsLoop (now uid sid : Nat) (oracle : Nat → Bool) :
    Nat → DB → List ParsedQuestion → Option DB
  | _, db, [] => some db
  | k, db, q :: qs =>
    if oracle k then none
    else insertQuestionsLoop now uid sid oracle (k + 1) (insertQuestionRow db now uid sid q) qs

/-- The generic-failure message of the `catch` block (line 454). -/
def txFailMsg : String := "An unexpected error occurred while saving the story."

/-- The `beginTransaction / createStory / createQuestion* / commit` block of
    `POST /stories` (lines 411-458); on any failing insert the transaction is
    rolled back and the original database is returned. -/
def storyTransaction (db : DB) (now uid : Nat) (v : FormValues) (oracle : Nat → Bool) :
    HResp × DB :=
  if oracle 0 then (HResp.render 500 txFailMsg v, db)
  else
    let r := insertStoryRow db now uid v
    match insertQuestionsLoop now uid r.1 oracle 1 r.2 v.questions with
    | none => (HResp.render 500 txFailMsg v, db)
    | some db2 => (HResp.redirect ("/story/" ++ Nat.repr r.1), db2)

/-- The `POST /stories` handler (lines 336-460). `uploadErr` is the rejection
    message of multer's `runUpload()` when the upload batch fails. -/
def postStories (db : DB) (now uid : Nat) (uploadErr : Option String)
    (body files : List (String × String)) (oracle : Nat → Bool) : HResp × DB :=
  match uploadErr with
  | some msg => (HResp.render 400 msg emptyStoryValues, db)
  | none =>
    let v := storyValues body files
    match storyFieldsError v with
    | some msg => (HResp.render 400 msg v, db)
    | none => storyTransaction db now uid v oracle

/-- Validation rejects the submission (a disjunction of exactly the guards of
    lines 366-409, in order). -/
def storiesValidationError (uploadErr : Option String)
    (body files : List (String × String)) : Bool :=
  uploadErr.isSome || (storyFieldsError (storyValues body files)).isSome

/-- The insert-failure oracle fires within the transaction's `1 + N` executes. -/
def transactionFails (oracle : Nat → Bool) (n : Nat) : Bool :=
  oracle 0 || (List.range n).any (fun k => oracle (k + 1))

/-- The `req.body.answers` value seen by `POST /questions`: an array, a single
    string, or absent. -/
inductive AnswersField where
  | arr (l : List String)
  | str (s : String)
  | missing
deriving DecidableEq, Repr

/-- `Array.isArray(req.body.answers) ? answers.map(trim) : [req.body.answers || ""]`. -/
def answersOf : AnswersField → List String
  | .arr l => l.map jsTrim
  | .str s => [s]
  | .missing => [""]

/-- `if (values.answers.length < 4) values.answers = [...answers, "", "", "", ""].slice(0, 4)`. -/
def padAnswers (l : List String) : List String :=
  if l.length < 4 then (l ++ ["", "", "", ""]).take 4 else l

/-- The `values` object of `POST /questions` (lines 528-539). -/
structure QFormValues where
  storyId : Option Int
  prompt : String
  answers : List String
  correctIndex : Option Int
deriving DecidableEq, Repr

/-- A response of `POST /questions`: `renderForm` carries the status and the
    error message; success is a redirect. -/
inductive QResp where
  | render (status : Nat) (error : Option String) (values : QFormValues)
  | redirect (location : String)
deriving DecidableEq, Repr

/-- The HTTP status of a rendered `POST /questions` response. -/
def QResp.statusOf : QResp → Option Nat
  | .render s _ _ => some s
  | .redirect _ => none

/-- The `POST /questions` handler (lines 486-623). `uploadErr` is the
    rejection message of multer's `runUpload()`; `file` the stored filename of
    the single `audio` upload. -/
def postQuestions (db : DB) (now uid : Nat) (uploadErr : Option String)
    (storyIdRaw promptRaw : String) (answersField : AnswersField)
    (correctRaw : String) (file : Option String) : QResp × DB :=
  let values : QFormValues :=
    { storyId := parseIntJS storyIdRaw
      prompt := jsTrim promptRaw
      answers := padAnswers (answersOf answersField)
      correctIndex := parseIntJS correctRaw }
  match uploadErr with
  | some msg => (QResp.render 400 (some msg) values, db)
  | none =>
    match values.storyId with
    | none =>
      (QResp.render 400 (some "Please choose which story this question belongs to.") values, db)
    | some sid =>
      if sid ≤ 0 then
        (QResp.render 400 (some "Please choose which story this question belongs to.") values, db)
      else if values.prompt == "" then
        (QResp.render 400 (some "Please provide the question prompt.") values, db)
      else if values.answers.any (fun a => a == "") then
        (QResp.render 400 (some "All four answer options are required.") values, db)
      else if invalidCorrectIndex values.correctIndex then
        (QResp.render 400 (some "Select which answer is correct.") values, db)
      else
        match List.find? (fun s => (s.id : Int) = sid) db.stories with
        | none =>
          (QResp.render 400 (some "The selected story could not be found.") values, db)
        | some _ =>
          let q : ParsedQuestion :=
            { prompt := values.prompt, answers := values.answers
              correctIndex := values.correctIndex, file := file }
          let qid := db.nextQuestionId
          (QResp.redirect ("/questions/new?created=" ++ Nat.repr qid),
           insertQuestionRow db now uid sid.toNat q)

/-- `ADMIN_EMAIL`. -/
def adminEmail : String := "karen12389033@gmail.com"

/-- The identity record stored by `setLoggedInUser`. -/
structure SessionUser where
  id : Nat
  email : String
deriving DecidableEq, Repr

/-- The express-session state the handlers touch. -/
structure Session where
  user : Option SessionUser
  returnTo : Option String
deriving DecidableEq, Repr

/-- `isAdmin(user)`. -/
def isAdminUser : Option SessionUser → Bool
  | some u => u.email == adminEmail
  | none => false

/-- The decision of an access-policy gate. -/
inductive GateResult where
  | allow
  | redirectLogin
  | forbidden
deriving DecidableEq, Repr

/-- `requireAuth` (lines 97-103): the returned session is the request session
    after the handler ran. -/
def requireAuth (sess : Session) (originalUrl : String) : GateResult × Session :=
  match sess.user with
  | none => (GateResult.redirectLogin, { sess with returnTo := some originalUrl })
  | some _ => (GateResult.allow, sess)

/-- `requireAdmin` (lines 105-114). -/
def requireAdmin (sess : Session) (originalUrl : String) : GateResult × Session :=
  match sess.user with
  | none => (GateResult.redirectLogin, { sess with returnTo := some originalUrl })
  | some u =>
    if !(isAdminUser (some u)) then (GateResult.forbidden, sess)
    else (GateResult.allow, sess)

/-- A row of the `users` table. -/
structure UserRow where
  id : Nat
  email : String
  passwordHash : String
deriving DecidableEq, Repr

/-- `normalizeEmail`. -/
def normalizeEmail (email : String) : String :=
  jsLower (jsTrim email)

/-- `findUserByEmail` (`WHERE email = ? LIMIT 1`). -/
def findUserByEmail (users : List UserRow) (email : String) : Option UserRow :=
  List.find? (fun u => u.email = email) users

/-- A response of `POST /login`: the rendered login form (status, error
    message, repopulated email) or a redirect. -/
inductive LoginResp where
  | render (status : Nat) (error : String) (emailValue : String)
  | redirect (location : String)
deriving DecidableEq, Repr

/-- The `POST /login` handler (lines 802-838). `bcryptCompare` abstracts
    `bcrypt.compare` (an external primitive). -/
def postLogin (users : List UserRow) (bcryptCompare : String → String → Bool)
    (sess : Session) (email password : String) : LoginResp × Session :=
  let normalized := normalizeEmail email
  if (normalized == "") || (password == "") then
    (LoginResp.render 400 "Please enter your email and password." email, sess)
  else
    match findUserByEmail users normalized with
    | none => (LoginResp.render 400 "Email or password is incorrect." email, sess)
    | some user =>
      if !(bcryptCompare password user.passwordHash) then
        (LoginResp.render 400 "Email or password is incorrect." email, sess)
      else
        let sess1 : Session :=
          { sess with user := some { id := user.id, email := normalizeEmail user.email } }
        let dest := sess1.returnTo.getD "/"
        (LoginResp.redirect dest, { sess1 with returnTo := none })

/-- `ORDER BY created_at DESC, id DESC` as a relation on `(created_at, id)`. -/
def newestKeyLe (ka kb : Nat × Nat) : Prop :=
  kb.1 < ka.1 ∨ (kb.1 = ka.1 ∧ kb.2 ≤ ka.2)

/-- `newestKeyLe` lifted to `stories` rows. -/
def storyNewestLe (a b : StoryRow) : Prop :=
  newestKeyLe (a.createdAt, a.id) (b.createdAt, b.id)

/-- `newestKeyLe` lifted to `vocabulary_entries` rows. -/
def vocabNewestLe (a b : VocabRow) : Prop :=
  newestKeyLe (a.createdAt, a.id) (b.createdAt, b.id)

/-- `newestKeyLe` lifted to `grammar_topics` rows. -/
def grammarNewestLe (a b : GrammarRow) : Prop :=
  newestKeyLe (a.createdAt, a.id) (b.createdAt, b.id)

/-- `ORDER BY id ASC` on `questions` rows. -/
def questionIdLe (a b : QuestionRow) : Prop := a.id ≤ b.id

instance : DecidableRel storyNewestLe :=
  fun _ _ => inferInstanceAs (Decidable (_ ∨ _))

instance : DecidableRel vocabNewestLe :=
  fun _ _ => inferInstanceAs (Decidable (_ ∨ _))

instance : DecidableRel grammarNewestLe :=
  fun _ _ => inferInstanceAs (Decidable (_ ∨ _))

instance : DecidableRel questionIdLe :=
  fun a b => Nat.decLe a.id b.id

/-- `getAllStories` (lines 116-120). -/
def getAllStories (db : DB) : List StoryRow :=
  List.insertionSort storyNewestLe db.stories

/-- `getStorySummaries` (lines 122-126): `SELECT id, title ... ORDER BY
    created_at DESC, id DESC`. -/
def getStorySummaries (db : DB) : List (Nat × String) :=
  List.map (fun s => (s.id, s.title)) (List.insertionSort storyNewestLe db.stories)

/-- `getVocabularyEntries` (lines 198-202). -/
def getVocabularyEntries (db : DB) : List VocabRow :=
  List.insertionSort vocabNewestLe db.vocab

/-- `getGrammarTopics` (lines 212-216). -/
def getGrammarTopics (db : DB) : List GrammarRow :=
  List.insertionSort grammarNewestLe db.grammar

/-- `getQuestionsForStory` (lines 183-196): `WHERE story_id = ? ORDER BY id
    ASC` (the JavaScript then repackages each row field-for-field). -/
def getQuestionsForStory (db : DB) (storyId : Nat) : List QuestionRow :=
  List.insertionSort questionIdLe (List.filter (fun q => q.storyId == storyId) db.questions)

/-- `newestKeyLe` lifted to `questions` rows (only the spec orders questions
    this way; the code does not). -/
def questionNewestLe (a b : QuestionRow) : Prop :=
  newestKeyLe (a.createdAt, a.id) (b.createdAt, b.id)

instance : DecidableRel questionNewestLe :=
  fun _ _ => inferInstanceAs (Decidable (_ ∨ _))

/-- Modelled from the spec: the ordering §4.3 asserts for every listing read
    operation, applied to the questions of a story — newest-first by creation
    time, ties broken by descending id. Used only to compare against
    `getQuestionsForStory`. -/
def specQuestionsNewestFirst (db : DB) (storyId : Nat) : List QuestionRow :=
  List.insertionSort questionNewestLe
    (List.filter (fun q => q.storyId == storyId) db.questions)

/-- The rows the transaction's question loop appends, with their assigned
    auto-increment ids. -/
def rowsFrom (startId sid now uid : Nat) : List ParsedQuestion → List QuestionRow
  | [] => []
  | q :: qs => mkQuestionRow startId sid now uid q :: rowsFrom (startId + 1) sid now uid qs

theorem rowsFrom_length (startId sid now uid : Nat) (qs : List ParsedQuestion) :
    (rowsFrom startId sid now uid qs).length = qs.length := by
  induction qs generalizing startId with
  | nil => rfl
  | cons q qs ih => simp [rowsFrom, ih]

theorem mem_rowsFrom {startId sid now uid : Nat} {qs : List ParsedQuestion}
    {r : QuestionRow} (h : r ∈ rowsFrom startId sid now uid qs) :
    ∃ q ∈ qs, ∃ i, r = mkQuestionRow i sid now uid q := by
  induction qs generalizing startId with
  | nil => simp [rowsFrom] at h
  | cons q qs ih =>
    simp only [rowsFrom, List.mem_cons] at h
    rcases h with h | h
    · exact ⟨q, List.mem_cons_self .., startId, h⟩
    · obtain ⟨q', hq', i, hi⟩ := ih h
      exact ⟨q', List.mem_cons_of_mem _ hq', i, hi⟩

theorem insertQuestionsLoop_ok (now uid sid : Nat) (oracle : Nat → Bool)
    (qs : List ParsedQuestion) (k : Nat) (db : DB)
    (h : ∀ j, j < qs.length → oracle (k + j) = false) :
    insertQuestionsLoop now uid sid oracle k db qs =
      some { db with
             questions := db.questions ++ rowsFrom db.nextQuestionId sid now uid qs
             nextQuestionId := db.nextQuestionId + qs.length } := by
  induction qs generalizing k db with
  | nil => simp [insertQuestionsLoop, rowsFrom]
  | cons q qs ih =>
    have h0 : oracle k = false := by simpa using h 0 (Nat.succ_pos _)
    rw [insertQuestionsLoop, h0]
    simp only [Bool.false_eq_true, if_false]
    rw [ih]
    · simp [insertQuestionRow, rowsFrom, List.length_cons, List.append_assoc]
      omega
    · intro j hj
      have := h (j + 1) (by simpa using Nat.succ_lt_succ hj)
      simpa [Nat.add_assoc, Nat.add_comm 1 j] using this

theorem insertQuestionsLoop_fail (now uid sid : Nat) (oracle : Nat → Bool)
    (qs : List ParsedQuestion) (k : Nat) (db : DB)
    (h : ∃ j, j < qs.length ∧ oracle (k + j) = true) :
    insertQuestionsLoop now uid sid oracle k db qs = none := by
  induction qs generalizing k db with
  | nil =>
    obtain ⟨j, hj, _⟩ := h
    exact absurd hj (by simp)
  | cons q qs ih =>
    rw [insertQuestionsLoop]
    by_cases h0 : oracle k = true
    · simp [h0]
    · have h0' : oracle k = false := by simpa using h0
      rw [h0']
      simp only [Bool.false_eq_true, if_false]
      apply ih
      obtain ⟨j, hj, hfire⟩ := h
      match j, hj, hfire with
      | 0, _, hfire => exact absurd hfire h0
      | j + 1, hj, hfire =>
        refine ⟨j, ?_, by simpa [Nat.add_assoc, Nat.add_comm 1 j] using hfire⟩
        simp only [List.length_cons] at hj
        omega

theorem insertQuestionsLoop_some (now uid sid : Nat) (oracle : Nat → Bool)
    (qs : List ParsedQuestion) (k : Nat) (db db2 : DB)
    (h : insertQuestionsLoop now uid sid oracle k db qs = some db2) :
    db2.questions = db.questions ++ rowsFrom db.nextQuestionId sid now uid qs := by
  induction qs generalizing k db with
  | nil =>
    simp only [insertQuestionsLoop, Option.some.injEq] at h
    simp [← h, rowsFrom]
  | cons q qs ih =>
    rw [insertQuestionsLoop] at h
    by_cases h0 : oracle k = true
    · simp [h0] at h
    · have h0' : oracle k = false := by simpa using h0
      rw [h0'] at h
      simp only [Bool.false_eq_true, if_false] at h
      have := ih (k + 1) _ h
      simpa [insertQuestionRow, rowsFrom, List.append_assoc] using this

/-- The empty initial database (fresh auto-increment counters). -/
def dbEmpty : DB :=
  { stories := [], questions := [], vocab := [], grammar := [],
    nextStoryId := 1, nextQuestionId := 1 }

theorem postStories_fields_err {body files : List (String × String)} {msg : String}
    (db : DB) (now uid : Nat) (oracle : Nat → Bool)
    (h : storyFieldsError (storyValues body files) = some msg) :
    postStories db now uid none body files oracle =
      (HResp.render 400 msg (storyValues body files), db) := by
  simp [postStories, h]

theorem storyTransaction_fail (db : DB) (now uid : Nat) (v : FormValues)
    (oracle : Nat → Bool) (h : transactionFails oracle v.questions.length = true) :
    storyTransaction db now uid v oracle = (HResp.render 500 txFailMsg v, db) := by
  rcases h0 : oracle 0 with _ | _
  · have hex : ∃ j, j < v.questions.length ∧ oracle (1 + j) = true := by
      rw [transactionFails, h0] at h
      simp only [Bool.false_or, List.any_eq_true, List.mem_range] at h
      obtain ⟨j, hj, hfire⟩ := h
      exact ⟨j, hj, by simpa [Nat.add_comm 1 j] using hfire⟩
    have hloop := insertQuestionsLoop_fail now uid (insertStoryRow db now uid v).1 oracle
      v.questions 1 (insertStoryRow db now uid v).2 hex
    unfold storyTransaction
    simp [h0, hloop]
  · unfold storyTransaction
    simp [h0]

/-- C1: if any submitted question fails validation (or the story fields do),
    or any insert inside the transaction fails, then the handler answers with
    a re-rendered form and the database is left exactly as it was: no Story
    row and no Question row is persisted. -/
theorem storySubmissionAtomic (db : DB) (now uid : Nat) (uploadErr : Option String)
    (body files : List (String × String)) (oracle : Nat → Bool)
    (h : storiesValidationError uploadErr body files = true ∨
         transactionFails oracle (parseStoryQuestions body files).length = true) :
    (postStories db now uid uploadErr body files oracle).2 = db ∧
    ∃ s msg v, (postStories db now uid uploadErr body files oracle).1 = HResp.render s msg v := by
  cases uploadErr with
  | some msg => exact ⟨rfl, 400, msg, emptyStoryValues, rfl⟩
  | none =>
    rcases hfe : storyFieldsError (storyValues body files) with _ | msg
    · have htx : transactionFails oracle (parseStoryQuestions body files).length = true := by
        rcases h with h | h
        · rw [storiesValidationError, hfe] at h
          simp at h
        · exact h
      have heq : postStories db now uid none body files oracle =
          (HResp.render 500 txFailMsg (storyValues body files), db) := by
        simp only [postStories, hfe]
        exact storyTransaction_fail db now uid _ oracle htx
      rw [heq]
      exact ⟨rfl, 500, txFailMsg, storyValues body files, rfl⟩
    · rw [postStories_fields_err db now uid oracle hfe]
      exact ⟨rfl, 400, msg, storyValues body files, rfl⟩

theorem storySubmissionAtomic_witness :
    (postStories dbEmpty 0 1 none
        [("title", "T"), ("level", "A1"), ("summary", "S"), ("body", "B"),
         ("questions[0][prompt]", "P")] [] (fun _ => false)).2 = dbEmpty ∧
    ∃ s msg v,
      (postStories dbEmpty 0 1 none
        [("title", "T"), ("level", "A1"), ("summary", "S"), ("body", "B"),
         ("questions[0][prompt]", "P")] [] (fun _ => false)).1 = HResp.render s msg v :=
  storySubmissionAtomic dbEmpty 0 1 none _ [] _ (Or.inl (by decide))

theorem storyTransaction_ok (db : DB) (now uid : Nat) (v : FormValues) :
    storyTransaction db now uid v (fun _ => false) =
      (HResp.redirect ("/story/" ++ Nat.repr db.nextStoryId),
       { stories := db.stories ++ [mkStoryRow db.nextStoryId now uid v]
         questions := db.questions ++ rowsFrom db.nextQuestionId db.nextStoryId now uid v.questions
         vocab := db.vocab
         grammar := db.grammar
         nextStoryId := db.nextStoryId + 1
         nextQuestionId := db.nextQuestionId + v.questions.length }) := by
  have hloop := insertQuestionsLoop_ok now uid (insertStoryRow db now uid v).1 (fun _ => false)
    v.questions 1 (insertStoryRow db now uid v).2 (fun _ _ => rfl)
  simp only [insertStoryRow] at hloop
  unfold storyTransaction
  simp [insertStoryRow, hloop]

/-- C2: a valid submission with N surviving questions inserts exactly one
    Story row (bearing the new id and the admin's user id) and exactly N
    Question rows, each referencing the new Story id and the admin's user id,
    and redirects to the story's detail page. -/
theorem storySubmissionSuccess (db : DB) (now uid : Nat)
    (body files : List (String × String))
    (hv : storiesValidationError none body files = false) :
    (postStories db now uid none body files (fun _ => false)).1 =
      HResp.redirect ("/story/" ++ Nat.repr db.nextStoryId) ∧
    (postStories db now uid none body files (fun _ => false)).2.stories =
      db.stories ++ [mkStoryRow db.nextStoryId now uid (storyValues body files)] ∧
    (mkStoryRow db.nextStoryId now uid (storyValues body files)).id = db.nextStoryId ∧
    (mkStoryRow db.nextStoryId now uid (storyValues body files)).authorId = uid ∧
    ∃ newRows,
      (postStories db now uid none body files (fun _ => false)).2.questions =
        db.questions ++ newRows ∧
      newRows.length = (parseStoryQuestions body files).length ∧
      ∀ r ∈ newRows, r.storyId = db.nextStoryId ∧ r.authorId = uid := by
  have hfe : storyFieldsError (storyValues body files) = none := by
    rw [storiesValidationError] at hv
    rcases h : storyFieldsError (storyValues body files) with _ | m
    · rfl
    · rw [h] at hv; simp at hv
  have heq : postStories db now uid none body files (fun _ => false) =
      storyTransaction db now uid (storyValues body files) (fun _ => false) := by
    simp only [postStories, hfe]
  rw [heq, storyTransaction_ok]
  refine ⟨rfl, rfl, rfl, rfl,
    rowsFrom db.nextQuestionId db.nextStoryId now uid (storyValues body files).questions,
    rfl, rowsFrom_length .., ?_⟩
  intro r hr
  obtain ⟨q, _, i, rfl⟩ := mem_rowsFrom hr
  exact ⟨rfl, rfl⟩

theorem storySubmissionSuccess_witness :
    (postStories dbEmpty 0 7 none
        [("title", "Der Mond"), ("level", "a1"), ("summary", "S"), ("body", "B"),
         ("questions[0][prompt]", "Farbe?"), ("questions[0][answers][0]", "Rot"),
         ("questions[0][answers][1]", "Blau"), ("questions[0][answers][2]", "Grün"),
         ("questions[0][answers][3]", "Gelb"), ("questions[0][correctIndex]", "2")]
        [] (fun _ => false)).1 =
      HResp.redirect ("/story/" ++ Nat.repr dbEmpty.nextStoryId) ∧
    (postStories dbEmpty 0 7 none
        [("title", "Der Mond"), ("level", "a1"), ("summary", "S"), ("body", "B"),
         ("questions[0][prompt]", "Farbe?"), ("questions[0][answers][0]", "Rot"),
         ("questions[0][answers][1]", "Blau"), ("questions[0][answers][2]", "Grün"),
         ("questions[0][answers][3]", "Gelb"), ("questions[0][correctIndex]", "2")]
        [] (fun _ => false)).2.stories =
      dbEmpty.stories ++ [mkStoryRow dbEmpty.nextStoryId 0 7 (storyValues
        [("title", "Der Mond"), ("level", "a1"), ("summary", "S"), ("body", "B"),
         ("questions[0][prompt]", "Farbe?"), ("questions[0][answers][0]", "Rot"),
         ("questions[0][answers][1]", "Blau"), ("questions[0][answers][2]", "Grün"),
         ("questions[0][answers][3]", "Gelb"), ("questions[0][correctIndex]", "2")] [])] ∧
    (mkStoryRow dbEmpty.nextStoryId 0 7 (storyValues
        [("title", "Der Mond"), ("level", "a1"), ("summary", "S"), ("body", "B"),
         ("questions[0][prompt]", "Farbe?"), ("questions[0][answers][0]", "Rot"),
         ("questions[0][answers][1]", "Blau"), ("questions[0][answers][2]", "Grün"),
         ("questions[0][answers][3]", "Gelb"), ("questions[0][correctIndex]", "2")] [])).id =
      dbEmpty.nextStoryId ∧
    (mkStoryRow dbEmpty.nextStoryId 0 7 (storyValues
        [("title", "Der Mond"), ("level", "a1"), ("summary", "S"), ("body", "B"),
         ("questions[0][prompt]", "Farbe?"), ("questions[0][answers][0]", "Rot"),
         ("questions[0][answers][1]", "Blau"), ("questions[0][answers][2]", "Grün"),
         ("questions[0][answers][3]", "Gelb"), ("questions[0][correctIndex]", "2")] [])).authorId =
      7 ∧
    ∃ newRows,
      (postStories dbEmpty 0 7 none
        [("title", "Der Mond"), ("level", "a1"), ("summary", "S"), ("body", "B"),
         ("questions[0][prompt]", "Farbe?"), ("questions[0][answers][0]", "Rot"),
         ("questions[0][answers][1]", "Blau"), ("questions[0][answers][2]", "Grün"),
         ("questions[0][answers][3]", "Gelb"), ("questions[0][correctIndex]", "2")]
        [] (fun _ => false)).2.questions =
        dbEmpty.questions ++ newRows ∧
      newRows.length = (parseStoryQuestions
        [("title", "Der Mond"), ("level", "a1"), ("summary", "S"), ("body", "B"),
         ("questions[0][prompt]", "Farbe?"), ("questions[0][answers][0]", "Rot"),
         ("questions[0][answers][1]", "Blau"), ("questions[0][answers][2]", "Grün"),
         ("questions[0][answers][3]", "Gelb"), ("questions[0][correctIndex]", "2")] []).length ∧
      ∀ r ∈ newRows, r.storyId = dbEmpty.nextStoryId ∧ r.authorId = 7 :=
  storySubmissionSuccess dbEmpty 0 7 _ [] (by decide)

theorem questionError_of_invalid {q : ParsedQuestion}
    (h : invalidCorrectIndex q.correctIndex = true) : questionError q ≠ none := by
  by_cases hA : ((q.prompt == "") || q.answers.any (fun a => a == "")) = true
  · simp [questionError, hA]
  · simp only [Bool.not_eq_true] at hA
    simp [questionError, hA, h]

theorem firstQuestionError_mem {qs : List ParsedQuestion} {q : ParsedQuestion}
    (hq : q ∈ qs) (h : questionError q ≠ none) : firstQuestionError qs ≠ none := by
  induction qs with
  | nil => simp at hq
  | cons p ps ih =>
    rw [firstQuestionError]
    rcases hp : questionError p with _ | m
    · rcases List.mem_cons.mp hq with rfl | hq'
      · exact absurd hp h
      · exact ih hq'
    · simp

theorem storyFieldsError_ne_none {v : FormValues}
    (h : firstQuestionError v.questions ≠ none) : storyFieldsError v ≠ none := by
  rw [storyFieldsError]
  split
  · simp
  · split
    · simp
    · exact h

/-- C4: a surviving question whose parsed correct-index is NaN or outside
    [0,3] makes `POST /stories` answer 400 with the database unchanged, and
    `POST /questions` enforces the same rule on its correct-index field. -/
theorem invalidCorrectIndexRejected :
    (∀ (db : DB) (now uid : Nat) (uploadErr : Option String)
       (body files : List (String × String)) (oracle : Nat → Bool) (q : ParsedQuestion),
        q ∈ parseStoryQuestions body files →
        invalidCorrectIndex q.correctIndex = true →
        (postStories db now uid uploadErr body files oracle).1.statusOf = some 400 ∧
        (postStories db now uid uploadErr body files oracle).2 = db) ∧
    (∀ (db : DB) (now uid : Nat) (uploadErr : Option String)
       (storyIdRaw promptRaw : String) (answersField : AnswersField)
       (correctRaw : String) (file : Option String),
        invalidCorrectIndex (parseIntJS correctRaw) = true →
        (postQuestions db now uid uploadErr storyIdRaw promptRaw answersField
            correctRaw file).1.statusOf = some 400 ∧
        (postQuestions db now uid uploadErr storyIdRaw promptRaw answersField
            correctRaw file).2 = db) := by
  constructor
  · intro db now uid uploadErr body files oracle q hq hinv
    cases uploadErr with
    | some msg => exact ⟨rfl, rfl⟩
    | none =>
      have hne : storyFieldsError (storyValues body files) ≠ none :=
        storyFieldsError_ne_none (firstQuestionError_mem hq (questionError_of_invalid hinv))
      rcases he : storyFieldsError (storyValues body files) with _ | msg
      · exact absurd he hne
      · rw [postStories_fields_err db now uid oracle he]
        exact ⟨rfl, rfl⟩
  · intro db now uid uploadErr storyIdRaw promptRaw answersField correctRaw file hinv
    cases uploadErr with
    | some msg => exact ⟨rfl, rfl⟩
    | none =>
      rcases hs : parseIntJS storyIdRaw with _ | sid
      · simp [postQuestions, QResp.statusOf, hs]
      · by_cases hsle : sid ≤ 0
        · simp [postQuestions, QResp.statusOf, hs, hsle]
        · by_cases hp : (jsTrim promptRaw == "") = true
          · simp [postQuestions, QResp.statusOf, hs, hsle, hp]
          · simp only [Bool.not_eq_true] at hp
            by_cases ha : ((padAnswers (answersOf answersField)).any (fun a => a == "")) = true
            · simp [postQuestions, QResp.statusOf, hs, hsle, hp, ha]
            · simp only [Bool.not_eq_true] at ha
              simp [postQuestions, QResp.statusOf, hs, hsle, hp, ha, hinv]

theorem invalidCorrectIndexRejected_witness :
    ((postStories dbEmpty 0 1 none
        [("title", "T"), ("level", "A1"), ("summary", "S"), ("body", "B"),
         ("questions[0][prompt]", "Farbe?"), ("questions[0][answers][0]", "Rot"),
         ("questions[0][answers][1]", "Blau"), ("questions[0][answers][2]", "Grün"),
         ("questions[0][answers][3]", "Gelb"), ("questions[0][correctIndex]", "5")]
        [] (fun _ => false)).1.statusOf = some 400 ∧
     (postStories dbEmpty 0 1 none
        [("title", "T"), ("level", "A1"), ("summary", "S"), ("body", "B"),
         ("questions[0][prompt]", "Farbe?"), ("questions[0][answers][0]", "Rot"),
         ("questions[0][answers][1]", "Blau"), ("questions[0][answers][2]", "Grün"),
         ("questions[0][answers][3]", "Gelb"), ("questions[0][correctIndex]", "5")]
        [] (fun _ => false)).2 = dbEmpty) ∧
    ((postQuestions dbEmpty 0 1 none "1" "P" (AnswersField.arr ["a", "b", "c", "d"]) "5"
        none).1.statusOf = some 400 ∧
     (postQuestions dbEmpty 0 1 none "1" "P" (AnswersField.arr ["a", "b", "c", "d"]) "5"
        none).2 = dbEmpty) :=
  ⟨invalidCorrectIndexRejected.1 dbEmpty 0 1 none _ [] (fun _ => false)
      { prompt := "Farbe?", answers := ["Rot", "Blau", "Grün", "Gelb"],
        correctIndex := some 5, file := none }
      (by decide) (by decide),
   invalidCorrectIndexRejected.2 dbEmpty 0 1 none "1" "P"
      (AnswersField.arr ["a", "b", "c", "d"]) "5" none (by decide)⟩

theorem mem_ensureQ {m : QMap} {i j : Nat} {q : ParsedQuestion}
    (h : (j, q) ∈ ensureQ m i) : (j, q) ∈ m ∨ (j = i ∧ q = emptyQuestion) := by
  rw [ensureQ] at h
  split at h
  · exact Or.inl h
  · rcases List.mem_append.mp h with h | h
    · exact Or.inl h
    · simp only [List.mem_singleton, Prod.mk.injEq] at h
      exact Or.inr h

theorem mem_updateQ {m : QMap} {i j : Nat} {f : ParsedQuestion → ParsedQuestion}
    {q : ParsedQuestion} (h : (j, q) ∈ updateQ m i f) :
    (j, q) ∈ m ∨ (j = i ∧ ∃ q0, (i, q0) ∈ m ∧ q = f q0) := by
  rw [updateQ] at h
  obtain ⟨e, he, heq⟩ := List.mem_map.mp h
  obtain ⟨a, b⟩ := e
  by_cases hai : a = i
  · rw [if_pos hai] at heq
    simp only [Prod.mk.injEq] at heq
    subst hai
    exact Or.inr ⟨heq.1.symm, b, he, heq.2.symm⟩
  · rw [if_neg hai] at heq
    exact Or.inl (heq ▸ he)

theorem correctDefault_ensureQ {m : QMap} {i jdx : Nat}
    (hm : ∀ q, (i, q) ∈ m → q.correctIndex = some 0) :
    ∀ q, (i, q) ∈ ensureQ m jdx → q.correctIndex = some 0 := by
  intro q hq
  rcases mem_ensureQ hq with h | ⟨_, rfl⟩
  · exact hm q h
  · rfl

theorem correctDefault_updateQ {m : QMap} {i jdx : Nat} {f : ParsedQuestion → ParsedQuestion}
    (hpres : ∀ q, (f q).correctIndex = q.correctIndex)
    (hm : ∀ q, (i, q) ∈ m → q.correctIndex = some 0) :
    ∀ q, (i, q) ∈ updateQ (ensureQ m jdx) jdx f → q.correctIndex = some 0 := by
  intro q hq
  rcases mem_updateQ hq with h | ⟨hij, q0, hq0, rfl⟩
  · exact correctDefault_ensureQ hm q h
  · rw [hpres]
    exact @correctDefault_ensureQ m i jdx hm q0 (by rw [hij]; exact hq0)

theorem correctDefault_updateQ_ne {m : QMap} {i jdx : Nat} {f : ParsedQuestion → ParsedQuestion}
    (hne : jdx ≠ i)
    (hm : ∀ q, (i, q) ∈ m → q.correctIndex = some 0) :
    ∀ q, (i, q) ∈ updateQ (ensureQ m jdx) jdx f → q.correctIndex = some 0 := by
  intro q hq
  rcases mem_updateQ hq with h | ⟨hij, _, _, _⟩
  · exact correctDefault_ensureQ hm q h
  · exact absurd hij.symm hne

theorem correctDefault_bodyStep (m : QMap) (field value : String) (i : Nat)
    (hf : matchCorrect field ≠ some i)
    (hm : ∀ q, (i, q) ∈ m → q.correctIndex = some 0) :
    ∀ q, (i, q) ∈ applyBodyField m field value → q.correctIndex = some 0 := by
  intro q hq
  rcases hP : matchPrompt field with _ | iP
  · rcases hC : matchCorrect field with _ | iC
    · rcases hA : matchAnswer field with _ | p
      · simp only [applyBodyField, hP, hC, hA] at hq
        exact hm q hq
      · simp only [applyBodyField, hP, hC, hA] at hq
        refine correctDefault_updateQ ?_ hm q hq
        intro q'
        by_cases h4 : p.2 < 4 <;> simp [h4]
    · simp only [applyBodyField, hP, hC] at hq
      refine correctDefault_updateQ_ne ?_ hm q hq
      intro hcontra
      exact hf (hcontra ▸ hC)
  · simp only [applyBodyField, hP] at hq
    refine correctDefault_updateQ ?_ hm q hq
    intro q'
    rfl

theorem correctDefault_fileStep (m : QMap) (fieldname filename : String) (i : Nat)
    (hm : ∀ q, (i, q) ∈ m → q.correctIndex = some 0) :
    ∀ q, (i, q) ∈ applyFileField m fieldname filename → q.correctIndex = some 0 := by
  intro q hq
  rcases hA : matchAudio fieldname with _ | iA
  · simp only [applyFileField, hA] at hq
    exact hm q hq
  · simp only [applyFileField, hA] at hq
    refine correctDefault_updateQ ?_ hm q hq
    intro q'
    rfl

theorem correctDefault_foldBody (body : List (String × String)) (i : Nat)
    (hb : ∀ fv ∈ body, matchCorrect fv.1 ≠ some i) :
    ∀ m, (∀ q, (i, q) ∈ m → q.correctIndex = some 0) →
      ∀ q, (i, q) ∈ List.foldl (fun m fv => applyBodyField m fv.1 fv.2) m body →
        q.correctIndex = some 0 := by
  induction body with
  | nil => exact fun m hm q hq => hm q hq
  | cons fv rest ih =>
    intro m hm q hq
    simp only [List.foldl_cons] at hq
    exact ih (fun gv hgv => hb gv (List.mem_cons_of_mem _ hgv)) _
      (correctDefault_bodyStep m fv.1 fv.2 i (hb fv (List.mem_cons_self ..)) hm) q hq

theorem correctDefault_foldFiles (files : List (String × String)) (i : Nat) :
    ∀ m, (∀ q, (i, q) ∈ m → q.correctIndex = some 0) →
      ∀ q, (i, q) ∈ List.foldl (fun m f => applyFileField m f.1 f.2) m files →
        q.correctIndex = some 0 := by
  induction files with
  | nil => exact fun m hm q hq => hm q hq
  | cons f rest ih =>
    intro m hm q hq
    simp only [List.foldl_cons] at hq
    exact ih _ (correctDefault_fileStep m f.1 f.2 i hm) q hq

/-- C10: a reconstructed question whose `questions[i][correctIndex]` field is
    absent keeps the default correct-index 0; with prompt and four answers
    filled in, its validation outcome is decided solely by whether the parsed
    correct-index is NaN or outside [0,3]; and a concrete submission with no
    correct-index field succeeds and is persisted with correct-index 0. -/
theorem missingCorrectIndexDefaults :
    (∀ (body files : List (String × String)) (i : Nat) (q : ParsedQuestion),
        (∀ fv ∈ body, matchCorrect fv.1 ≠ some i) →
        (i, q) ∈ buildQuestionMap body files →
        q.correctIndex = some 0) ∧
    (∀ q : ParsedQuestion, (q.prompt == "") = false →
        (q.answers.any (fun a => a == "")) = false →
        (questionError q ≠ none ↔ invalidCorrectIndex q.correctIndex = true)) ∧
    ((postStories dbEmpty 0 1 none
        [("title", "T"), ("level", "A1"), ("summary", "S"), ("body", "B"),
         ("questions[0][prompt]", "P"), ("questions[0][answers][0]", "a"),
         ("questions[0][answers][1]", "b"), ("questions[0][answers][2]", "c"),
         ("questions[0][answers][3]", "d")] [] (fun _ => false)).1 =
       HResp.redirect "/story/1" ∧
     ((postStories dbEmpty 0 1 none
        [("title", "T"), ("level", "A1"), ("summary", "S"), ("body", "B"),
         ("questions[0][prompt]", "P"), ("questions[0][answers][0]", "a"),
         ("questions[0][answers][1]", "b"), ("questions[0][answers][2]", "c"),
         ("questions[0][answers][3]", "d")] [] (fun _ => false)).2.questions.map
          (fun r => r.correctIndex)) = [some 0]) := by
  refine ⟨?_, ?_, by decide, by decide⟩
  · intro body files i q hb hm
    rw [buildQuestionMap] at hm
    exact correctDefault_foldFiles files i _
      (correctDefault_foldBody body i hb [] (by simp)) q hm
  · intro q hp ha
    rw [questionError]
    rw [hp, ha]
    simp only [Bool.or_self, Bool.false_eq_true, if_false]
    rcases hinv : invalidCorrectIndex q.correctIndex with _ | _
    · simp
    · simp

theorem missingCorrectIndexDefaults_witness :
    ((3, ({ prompt := "X", answers := ["", "", "", ""], correctIndex := some 0,
            file := none } : ParsedQuestion)) ∈
        buildQuestionMap [("questions[3][prompt]", "X")] [] ∧
     ({ prompt := "X", answers := ["", "", "", ""], correctIndex := some 0,
        file := none } : ParsedQuestion).correctIndex = some 0) ∧
    (questionError ({ prompt := "P", answers := ["a", "b", "c", "d"],
                      correctIndex := some 5, file := none } : ParsedQuestion) ≠ none ↔
      invalidCorrectIndex (some 5) = true) :=
  ⟨⟨by decide,
    missingCorrectIndexDefaults.1 [("questions[3][prompt]", "X")] [] 3 _
      (by decide) (by decide)⟩,
   missingCorrectIndexDefaults.2.1 _ (by decide) (by decide)⟩

theorem mem_ensureQ' {m : QMap} {i : Nat} {e : Nat × ParsedQuestion}
    (h : e ∈ ensureQ m i) : e ∈ m ∨ e = (i, emptyQuestion) := by
  rw [ensureQ] at h
  split at h
  · exact Or.inl h
  · rcases List.mem_append.mp h with h | h
    · exact Or.inl h
    · simp only [List.mem_singleton] at h
      exact Or.inr h

theorem mem_updateQ' {m : QMap} {i : Nat} {f : ParsedQuestion → ParsedQuestion}
    {e : Nat × ParsedQuestion} (h : e ∈ updateQ m i f) :
    e ∈ m ∨ ∃ e0 ∈ m, e = (e0.1, f e0.2) := by
  rw [updateQ] at h
  obtain ⟨e0, he0, heq⟩ := List.mem_map.mp h
  by_cases h1 : e0.1 = i
  · rw [if_pos h1] at heq
    exact Or.inr ⟨e0, he0, heq.symm⟩
  · rw [if_neg h1] at heq
    exact Or.inl (heq ▸ he0)

theorem len4_updateQ {m : QMap} {i : Nat} {f : ParsedQuestion → ParsedQuestion}
    (hpres : ∀ q, (f q).answers.length = q.answers.length)
    (hm : ∀ e ∈ m, (e.2).answers.length = 4) :
    ∀ e ∈ updateQ (ensureQ m i) i f, (e.2).answers.length = 4 := by
  intro e he
  rcases mem_updateQ' he with h | ⟨e0, he0, rfl⟩
  · rcases mem_ensureQ' h with h | rfl
    · exact hm e h
    · rfl
  · rcases mem_ensureQ' he0 with h | rfl
    · rw [hpres]
      exact hm e0 h
    · rw [hpres]
      rfl

theorem len4_applyBodyField {m : QMap} (field value : String)
    (hm : ∀ e ∈ m, (e.2).answers.length = 4) :
    ∀ e ∈ applyBodyField m field value, (e.2).answers.length = 4 := by
  intro e he
  rcases hP : matchPrompt field with _ | iP
  · rcases hC : matchCorrect field with _ | iC
    · rcases hA : matchAnswer field with _ | p
      · simp only [applyBodyField, hP, hC, hA] at he
        exact hm e he
      · simp only [applyBodyField, hP, hC, hA] at he
        refine len4_updateQ ?_ hm e he
        intro q'
        by_cases h4 : p.2 < 4 <;> simp [h4]
    · simp only [applyBodyField, hP, hC] at he
      refine len4_updateQ ?_ hm e he
      intro q'
      rfl
  · simp only [applyBodyField, hP] at he
    refine len4_updateQ ?_ hm e he
    intro q'
    rfl

theorem len4_applyFileField {m : QMap} (fieldname filename : String)
    (hm : ∀ e ∈ m, (e.2).answers.length = 4) :
    ∀ e ∈ applyFileField m fieldname filename, (e.2).answers.length = 4 := by
  intro e he
  rcases hA : matchAudio fieldname with _ | iA
  · simp only [applyFileField, hA] at he
    exact hm e he
  · simp only [applyFileField, hA] at he
    refine len4_updateQ ?_ hm e he
    intro q'
    rfl

theorem len4_buildQuestionMap (body files : List (String × String)) :
    ∀ e ∈ buildQuestionMap body files, (e.2).answers.length = 4 := by
  rw [buildQuestionMap]
  have hbody : ∀ (l : List (String × String)) (m : QMap),
      (∀ e ∈ m, (e.2).answers.length = 4) →
      ∀ e ∈ List.foldl (fun m fv => applyBodyField m fv.1 fv.2) m l,
        (e.2).answers.length = 4 := by
    intro l
    induction l with
    | nil => exact fun m hm e he => hm e he
    | cons fv rest ih =>
      intro m hm e he
      simp only [List.foldl_cons] at he
      exact ih _ (len4_applyBodyField fv.1 fv.2 hm) e he
  have hfiles : ∀ (l : List (String × String)) (m : QMap),
      (∀ e ∈ m, (e.2).answers.length = 4) →
      ∀ e ∈ List.foldl (fun m f => applyFileField m f.1 f.2) m l,
        (e.2).answers.length = 4 := by
    intro l
    induction l with
    | nil => exact fun m hm e he => hm e he
    | cons f rest ih =>
      intro m hm e he
      simp only [List.foldl_cons] at he
      exact ih _ (len4_applyFileField f.1 f.2 hm) e he
  exact hfiles files _ (hbody body [] (by simp))

theorem mem_sortedCandidates_len4 {body files : List (String × String)}
    {q : ParsedQuestion} (h : q ∈ sortedCandidates body files) :
    q.answers.length = 4 := by
  rw [sortedCandidates] at h
  obtain ⟨e, he, rfl⟩ := List.mem_map.mp h
  have hperm := List.perm_insertionSort entryLe (buildQuestionMap body files)
  exact len4_buildQuestionMap body files e (hperm.mem_iff.mp he)

theorem keepQuestion_iff (q : ParsedQuestion) :
    keepQuestion q = true ↔ (q.prompt ≠ "" ∨ ∃ a ∈ q.answers, a ≠ "") := by
  simp [keepQuestion, List.any_eq_true, bne_iff_ne]

theorem length_eq_four_form {l : List String} (h : l.length = 4) :
    ∃ a b c d, l = [a, b, c, d] := by
  match l, h with
  | [a, b, c, d], _ => exact ⟨a, b, c, d, rfl⟩

/-- C5: a candidate question whose trimmed prompt is empty and whose trimmed
    answers are all empty is dropped by `parseStoryQuestions` before
    validation; a candidate with a non-empty prompt or a non-empty answer
    survives; and every Question row `POST /stories` ever adds comes from a
    surviving (hence non-blank) question. -/
theorem blankQuestionRowsDropped :
    (∀ (body files : List (String × String)) (q : ParsedQuestion),
        q ∈ parseStoryQuestions body files → (q.prompt ≠ "" ∨ ∃ a ∈ q.answers, a ≠ "")) ∧
    (∀ (body files : List (String × String)) (q : ParsedQuestion),
        q ∈ sortedCandidates body files → (q.prompt ≠ "" ∨ ∃ a ∈ q.answers, a ≠ "") →
        q ∈ parseStoryQuestions body files) ∧
    (∀ (db : DB) (now uid : Nat) (uploadErr : Option String)
       (body files : List (String × String)) (oracle : Nat → Bool) (r : QuestionRow),
        r ∈ (postStories db now uid uploadErr body files oracle).2.questions →
        r ∈ db.questions ∨ r.prompt ≠ "" ∨ r.answerA ≠ "" ∨ r.answerB ≠ "" ∨
          r.answerC ≠ "" ∨ r.answerD ≠ "") := by
  refine ⟨?_, ?_, ?_⟩
  · intro body files q hq
    exact (keepQuestion_iff q).mp (List.mem_filter.mp hq).2
  · intro body files q hq hne
    exact List.mem_filter.mpr ⟨hq, (keepQuestion_iff q).mpr hne⟩
  · intro db now uid uploadErr body files oracle r hr
    cases uploadErr with
    | some msg => exact Or.inl hr
    | none =>
      rcases hfe : storyFieldsError (storyValues body files) with _ | msg
      · have heq : postStories db now uid none body files oracle =
            storyTransaction db now uid (storyValues body files) oracle := by
          simp only [postStories, hfe]
        rw [heq] at hr
        unfold storyTransaction at hr
        by_cases h0 : oracle 0 = true
        · rw [if_pos h0] at hr
          exact Or.inl hr
        · rw [if_neg h0] at hr
          simp only [insertStoryRow] at hr
          split at hr
          · exact Or.inl hr
          · rename_i db2 hloop
            have hchar := insertQuestionsLoop_some now uid db.nextStoryId oracle
              (storyValues body files).questions 1 _ db2 hloop
            rw [hchar] at hr
            simp only at hr
            rcases List.mem_append.mp hr with hold | hnew
            · exact Or.inl hold
            · obtain ⟨q0, hq0, i, rfl⟩ := mem_rowsFrom hnew
              have hk : keepQuestion q0 = true :=
                (List.mem_filter.mp
                  (show q0 ∈ List.filter keepQuestion (sortedCandidates body files)
                    from hq0)).2
              rcases (keepQuestion_iff q0).mp hk with hp | ⟨a, ha, hane⟩
              · exact Or.inr (Or.inl hp)
              · obtain ⟨a0, b0, c0, d0, hform⟩ := length_eq_four_form
                  (mem_sortedCandidates_len4
                    (List.mem_of_mem_filter
                      (show q0 ∈ List.filter keepQuestion (sortedCandidates body files)
                        from hq0)))
                rw [hform] at ha
                simp only [List.mem_cons, List.not_mem_nil, or_false] at ha
                simp only [mkQuestionRow, hform]
                rcases ha with rfl | rfl | rfl | rfl
                · exact Or.inr (Or.inr (Or.inl (by simpa using hane)))
                · exact Or.inr (Or.inr (Or.inr (Or.inl (by simpa using hane))))
                · exact Or.inr (Or.inr (Or.inr (Or.inr (Or.inl (by simpa using hane)))))
                · exact Or.inr (Or.inr (Or.inr (Or.inr (Or.inr (by simpa using hane)))))
      · rw [postStories_fields_err db now uid oracle hfe] at hr
        exact Or.inl hr

theorem blankQuestionRowsDropped_witness :
    ({ prompt := "P", answers := ["", "", "", ""], correctIndex := some 0,
       file := none } : ParsedQuestion) ∈
      parseStoryQuestions [("questions[0][prompt]", "P")] [] ∧
    (({ id := 1, storyId := 1, answerA := "a", answerB := "b", answerC := "c",
        answerD := "d", prompt := "P", correctIndex := some 0, audioPath := none,
        authorId := 1, createdAt := 0 } : QuestionRow) ∈ dbEmpty.questions ∨
      ({ id := 1, storyId := 1, answerA := "a", answerB := "b", answerC := "c",
         answerD := "d", prompt := "P", correctIndex := some 0, audioPath := none,
         authorId := 1, createdAt := 0 } : QuestionRow).prompt ≠ "" ∨
      ({ id := 1, storyId := 1, answerA := "a", answerB := "b", answerC := "c",
         answerD := "d", prompt := "P", correctIndex := some 0, audioPath := none,
         authorId := 1, createdAt := 0 } : QuestionRow).answerA ≠ "" ∨
      ({ id := 1, storyId := 1, answerA := "a", answerB := "b", answerC := "c",
         answerD := "d", prompt := "P", correctIndex := some 0, audioPath := none,
         authorId := 1, createdAt := 0 } : QuestionRow).answerB ≠ "" ∨
      ({ id := 1, storyId := 1, answerA := "a", answerB := "b", answerC := "c",
         answerD := "d", prompt := "P", correctIndex := some 0, audioPath := none,
         authorId := 1, createdAt := 0 } : QuestionRow).answerC ≠ "" ∨
      ({ id := 1, storyId := 1, answerA := "a", answerB := "b", answerC := "c",
         answerD := "d", prompt := "P", correctIndex := some 0, audioPath := none,
         authorId := 1, createdAt := 0 } : QuestionRow).answerD ≠ "") :=
  ⟨blankQuestionRowsDropped.2.1 [("questions[0][prompt]", "P")] [] _
      (by decide) (Or.inl (by decide)),
   blankQuestionRowsDropped.2.2 dbEmpty 0 1 none
      [("title", "T"), ("level", "A1"), ("summary", "S"), ("body", "B"),
       ("questions[0][prompt]", "P"), ("questions[0][answers][0]", "a"),
       ("questions[0][answers][1]", "b"), ("questions[0][answers][2]", "c"),
       ("questions[0][answers][3]", "d")] [] (fun _ => false) _ (by decide)⟩

/-- The question index a body field name contributes, if any (the first of
    the three anchored patterns that matches). -/
def fieldIndex (f : String) : Option Nat :=
  match matchPrompt f with
  | some i => some i
  | none =>
    match matchCorrect f with
    | some i => some i
    | none =>
      match matchAnswer f with
      | some p => some p.1
      | none => none

theorem memKey_ensureQ (m : QMap) (i j : Nat) :
    (∃ q, (j, q) ∈ ensureQ m i) ↔ (∃ q, (j, q) ∈ m) ∨ j = i := by
  constructor
  · rintro ⟨q, hq⟩
    rcases mem_ensureQ hq with h | ⟨rfl, _⟩
    · exact Or.inl ⟨q, h⟩
    · exact Or.inr rfl
  · rintro (⟨q, hq⟩ | rfl)
    · refine ⟨q, ?_⟩
      rw [ensureQ]
      split
      · exact hq
      · exact List.mem_append_left _ hq
    · rw [ensureQ]
      split
      · rename_i hany
        simp only [List.any_eq_true, decide_eq_true_eq] at hany
        obtain ⟨e, he, hkey⟩ := hany
        obtain ⟨a, b⟩ := e
        exact ⟨b, hkey ▸ he⟩
      · exact ⟨emptyQuestion, List.mem_append_right _ (by simp)⟩

theorem memKey_updateQ (m : QMap) (i j : Nat) (f : ParsedQuestion → ParsedQuestion) :
    (∃ q, (j, q) ∈ updateQ m i f) ↔ ∃ q, (j, q) ∈ m := by
  constructor
  · rintro ⟨q, hq⟩
    rcases mem_updateQ hq with h | ⟨rfl, q0, hq0, _⟩
    · exact ⟨q, h⟩
    · exact ⟨q0, hq0⟩
  · rintro ⟨q, hq⟩
    by_cases hji : j = i
    · subst hji
      exact ⟨f q, List.mem_map.mpr ⟨(j, q), hq, by simp⟩⟩
    · exact ⟨q, List.mem_map.mpr ⟨(j, q), hq, by simp [hji]⟩⟩

theorem memKey_applyBodyField (m : QMap) (field value : String) (j : Nat) :
    (∃ q, (j, q) ∈ applyBodyField m field value) ↔
      (∃ q, (j, q) ∈ m) ∨ fieldIndex field = some j := by
  rcases hP : matchPrompt field with _ | iP
  · rcases hC : matchCorrect field with _ | iC
    · rcases hA : matchAnswer field with _ | p
      · simp only [applyBodyField, fieldIndex, hP, hC, hA]
        simp
      · simp only [applyBodyField, fieldIndex, hP, hC, hA]
        rw [memKey_updateQ, memKey_ensureQ]
        simp [eq_comm]
    · simp only [applyBodyField, fieldIndex, hP, hC]
      rw [memKey_updateQ, memKey_ensureQ]
      simp [eq_comm]
  · simp only [applyBodyField, fieldIndex, hP]
    rw [memKey_updateQ, memKey_ensureQ]
    simp [eq_comm]

theorem memKey_applyFileField (m : QMap) (fieldname filename : String) (j : Nat) :
    (∃ q, (j, q) ∈ applyFileField m fieldname filename) ↔
      (∃ q, (j, q) ∈ m) ∨ matchAudio fieldname = some j := by
  rcases hA : matchAudio fieldname with _ | iA
  · simp only [applyFileField, hA]
    simp
  · simp only [applyFileField, hA]
    rw [memKey_updateQ, memKey_ensureQ]
    simp [eq_comm]

theorem memKey_foldBody (body : List (String × String)) :
    ∀ (m : QMap) (j : Nat),
      (∃ q, (j, q) ∈ List.foldl (fun m fv => applyBodyField m fv.1 fv.2) m body) ↔
        (∃ q, (j, q) ∈ m) ∨ ∃ fv ∈ body, fieldIndex fv.1 = some j := by
  induction body with
  | nil => simp
  | cons fv rest ih =>
    intro m j
    simp only [List.foldl_cons]
    rw [ih, memKey_applyBodyField, List.exists_mem_cons_iff]
    tauto

theorem memKey_foldFiles (files : List (String × String)) :
    ∀ (m : QMap) (j : Nat),
      (∃ q, (j, q) ∈ List.foldl (fun m f => applyFileField m f.1 f.2) m files) ↔
        (∃ q, (j, q) ∈ m) ∨ ∃ f ∈ files, matchAudio f.1 = some j := by
  induction files with
  | nil => simp
  | cons f rest ih =>
    intro m j
    simp only [List.foldl_cons]
    rw [ih, memKey_applyFileField, List.exists_mem_cons_iff]
    tauto

theorem memKey_buildQuestionMap (body files : List (String × String)) (j : Nat) :
    (∃ q, (j, q) ∈ buildQuestionMap body files) ↔
      (∃ fv ∈ body, fieldIndex fv.1 = some j) ∨ ∃ f ∈ files, matchAudio f.1 = some j := by
  rw [buildQuestionMap, memKey_foldFiles, memKey_foldBody]
  simp

/-- The key list of the `questionMap`. -/
def keysOf (m : QMap) : List Nat := m.map (fun e => e.1)

theorem keysOf_updateQ (m : QMap) (i : Nat) (f : ParsedQuestion → ParsedQuestion) :
    keysOf (updateQ m i f) = keysOf m := by
  rw [updateQ, keysOf, keysOf, List.map_map]
  refine List.map_congr_left ?_
  intro e _
  by_cases h : e.1 = i
  · simp [h]
  · simp [h]

theorem keysOf_ensureQ_nodup {m : QMap} (i : Nat) (h : (keysOf m).Nodup) :
    (keysOf (ensureQ m i)).Nodup := by
  rw [ensureQ]
  split
  · exact h
  · rename_i hany
    simp only [List.any_eq_true, decide_eq_true_eq, not_exists, not_and] at hany
    rw [keysOf, List.map_append]
    simp only [List.map_cons, List.map_nil]
    rw [List.nodup_append]
    refine ⟨h, List.nodup_singleton i, ?_⟩
    intro a ha hb
    simp only [List.mem_singleton] at hb
    obtain ⟨e, he, hkey⟩ := List.mem_map.mp ha
    exact hany e he (hkey.trans hb)

theorem keysOf_applyBodyField_nodup {m : QMap} (field value : String)
    (h : (keysOf m).Nodup) : (keysOf (applyBodyField m field value)).Nodup := by
  rcases hP : matchPrompt field with _ | iP
  · rcases hC : matchCorrect field with _ | iC
    · rcases hA : matchAnswer field with _ | p
      · simpa only [applyBodyField, hP, hC, hA] using h
      · simp only [applyBodyField, hP, hC, hA, keysOf_updateQ]
        exact keysOf_ensureQ_nodup _ h
    · simp only [applyBodyField, hP, hC, keysOf_updateQ]
      exact keysOf_ensureQ_nodup _ h
  · simp only [applyBodyField, hP, keysOf_updateQ]
    exact keysOf_ensureQ_nodup _ h

theorem keysOf_applyFileField_nodup {m : QMap} (fieldname filename : String)
    (h : (keysOf m).Nodup) : (keysOf (applyFileField m fieldname filename)).Nodup := by
  rcases hA : matchAudio fieldname with _ | iA
  · simpa only [applyFileField, hA] using h
  · simp only [applyFileField, hA, keysOf_updateQ]
    exact keysOf_ensureQ_nodup _ h

theorem keysOf_buildQuestionMap_nodup (body files : List (String × String)) :
    (keysOf (buildQuestionMap body files)).Nodup := by
  rw [buildQuestionMap]
  have hbody : ∀ (l : List (String × String)) (m : QMap), (keysOf m).Nodup →
      (keysOf (List.foldl (fun m fv => applyBodyField m fv.1 fv.2) m l)).Nodup := by
    intro l
    induction l with
    | nil => exact fun m hm => hm
    | cons fv rest ih =>
      intro m hm
      simp only [List.foldl_cons]
      exact ih _ (keysOf_applyBodyField_nodup fv.1 fv.2 hm)
  have hfiles : ∀ (l : List (String × String)) (m : QMap), (keysOf m).Nodup →
      (keysOf (List.foldl (fun m f => applyFileField m f.1 f.2) m l)).Nodup := by
    intro l
    induction l with
    | nil => exact fun m hm => hm
    | cons f rest ih =>
      intro m hm
      simp only [List.foldl_cons]
      exact ih _ (keysOf_applyFileField_nodup f.1 f.2 hm)
  exact hfiles files _ (hbody body [] (by simp [keysOf]))

theorem fieldIndex_eq_none {field : String} (h : fieldIndex field = none) :
    matchPrompt field = none ∧ matchCorrect field = none ∧ matchAnswer field = none := by
  rcases hP : matchPrompt field with _ | iP
  · rcases hC : matchCorrect field with _ | iC
    · rcases hA : matchAnswer field with _ | p
      · exact ⟨rfl, rfl, rfl⟩
      · simp [fieldIndex, hP, hC, hA] at h
    · simp [fieldIndex, hP, hC] at h
  · simp [fieldIndex, hP] at h

theorem applyBodyField_nonmatching (m : QMap) (field value : String)
    (h : fieldIndex field = none) : applyBodyField m field value = m := by
  obtain ⟨hP, hC, hA⟩ := fieldIndex_eq_none h
  simp [applyBodyField, hP, hC, hA]

theorem foldBody_filter (body : List (String × String)) :
    ∀ m : QMap,
      List.foldl (fun m fv => applyBodyField m fv.1 fv.2) m
          (List.filter (fun fv => (fieldIndex fv.1).isSome) body) =
        List.foldl (fun m fv => applyBodyField m fv.1 fv.2) m body := by
  induction body with
  | nil => exact fun m => rfl
  | cons fv rest ih =>
    intro m
    by_cases hf : ((fieldIndex fv.1).isSome : Bool) = true
    · simp only [List.filter_cons, hf, if_true, List.foldl_cons]
      exact ih _
    · have hnone : fieldIndex fv.1 = none := by
        rcases h' : fieldIndex fv.1 with _ | i
        · rfl
        · rw [h'] at hf
          simp at hf
      simp only [List.filter_cons, hf, if_false, List.foldl_cons,
        applyBodyField_nonmatching m fv.1 fv.2 hnone]
      exact ih _

/-- C3 (amended): the reconstructed question list is sorted by ascending
    numeric index with duplicate-free indices; the set of reconstructed
    indices is exactly the set of indices matched by some body field or file
    field, regardless of where they sit in the input and of gaps; field names
    matching none of the fixed patterns contribute nothing; and scattered
    fields for indices {2, 0, 5} come out ordered [0, 2, 5]. -/
theorem questionReconstructionOrder :
    (∀ body files : List (String × String),
        List.Sorted entryLe (sortedEntries body files) ∧
        ((sortedEntries body files).map (fun e => e.1)).Nodup) ∧
    (∀ (body files : List (String × String)) (j : Nat),
        (∃ q, (j, q) ∈ sortedEntries body files) ↔
          (∃ fv ∈ body, fieldIndex fv.1 = some j) ∨ ∃ f ∈ files, matchAudio f.1 = some j) ∧
    (∀ body files : List (String × String),
        parseStoryQuestions (List.filter (fun fv => (fieldIndex fv.1).isSome) body) files =
          parseStoryQuestions body files) ∧
    (parseStoryQuestions
        [("questions[2][prompt]", "p2"), ("questions[0][prompt]", "p0"),
         ("questions[5][prompt]", "p5")] []).map (fun q => q.prompt) = ["p0", "p2", "p5"] := by
  refine ⟨?_, ?_, ?_, by decide⟩
  · intro body files
    refine ⟨List.sorted_insertionSort entryLe (buildQuestionMap body files), ?_⟩
    have hperm := List.perm_insertionSort entryLe (buildQuestionMap body files)
    have h2 := keysOf_buildQuestionMap_nodup body files
    rw [keysOf] at h2
    exact ((hperm.map (fun e => e.1)).nodup_iff).mpr h2
  · intro body files j
    have hperm := List.perm_insertionSort entryLe (buildQuestionMap body files)
    constructor
    · rintro ⟨q, hq⟩
      exact (memKey_buildQuestionMap body files j).mp ⟨q, hperm.mem_iff.mp hq⟩
    · intro h
      obtain ⟨q, hq⟩ := (memKey_buildQuestionMap body files j).mpr h
      exact ⟨q, hperm.mem_iff.mpr hq⟩
  · intro body files
    rw [parseStoryQuestions, parseStoryQuestions, sortedCandidates, sortedCandidates,
      sortedEntries, sortedEntries, buildQuestionMap, buildQuestionMap, foldBody_filter]

theorem questionReconstructionOrder_counterexample :
    List.Perm
      [("questions[01][prompt]", "A"), ("questions[1][prompt]", "B")]
      [("questions[1][prompt]", "B"), ("questions[01][prompt]", "A")] ∧
    parseStoryQuestions [("questions[01][prompt]", "A"), ("questions[1][prompt]", "B")] [] ≠
      parseStoryQuestions [("questions[1][prompt]", "B"), ("questions[01][prompt]", "A")] [] :=
  ⟨List.Perm.swap _ _ _, by decide⟩

theorem questionReconstructionOrder_witness :
    ∃ q, (4, q) ∈ sortedEntries [("questions[4][correctIndex]", "1")] [] :=
  (questionReconstructionOrder.2.1 [("questions[4][correctIndex]", "1")] [] 4).mpr
    (Or.inl ⟨("questions[4][correctIndex]", "1"), by decide, by decide⟩)

instance : IsTotal StoryRow storyNewestLe :=
  ⟨fun a b => by unfold storyNewestLe newestKeyLe; omega⟩

instance : IsTrans StoryRow storyNewestLe :=
  ⟨fun a b c hab hbc => by unfold storyNewestLe newestKeyLe at *; omega⟩

instance : IsTotal VocabRow vocabNewestLe :=
  ⟨fun a b => by unfold vocabNewestLe newestKeyLe; omega⟩

instance : IsTrans VocabRow vocabNewestLe :=
  ⟨fun a b c hab hbc => by unfold vocabNewestLe newestKeyLe at *; omega⟩

instance : IsTotal GrammarRow grammarNewestLe :=
  ⟨fun a b => by unfold grammarNewestLe newestKeyLe; omega⟩

instance : IsTrans GrammarRow grammarNewestLe :=
  ⟨fun a b c hab hbc => by unfold grammarNewestLe newestKeyLe at *; omega⟩

instance : IsTotal QuestionRow questionIdLe :=
  ⟨fun a b => by unfold questionIdLe; omega⟩

instance : IsTrans QuestionRow questionIdLe :=
  ⟨fun a b c hab hbc => by unfold questionIdLe at *; omega⟩

/-- The database used to exhibit the ordering of `getQuestionsForStory`:
    two questions of story 1 with equal creation times and ids 1 and 2. -/
def dbTwoQuestions : DB :=
  { stories := [], questions :=
      [{ id := 1, storyId := 1, answerA := "a", answerB := "b", answerC := "c",
         answerD := "d", prompt := "P1", correctIndex := some 0, audioPath := none,
         authorId := 1, createdAt := 5 },
       { id := 2, storyId := 1, answerA := "a", answerB := "b", answerC := "c",
         answerD := "d", prompt := "P2", correctIndex := some 1, audioPath := none,
         authorId := 1, createdAt := 5 }],
    vocab := [], grammar := [], nextStoryId := 2, nextQuestionId := 3 }

/-- C6 (amended): stories, story summaries, vocabulary entries and grammar
    topics are listed newest-first by creation time with ties broken by
    descending id, but the questions of a story are listed by ascending id
    (oldest first). -/
theorem listingOrder (db : DB) (storyId : Nat) :
    List.Sorted storyNewestLe (getAllStories db) ∧
    (getAllStories db).Perm db.stories ∧
    getStorySummaries db = (getAllStories db).map (fun s => (s.id, s.title)) ∧
    List.Sorted vocabNewestLe (getVocabularyEntries db) ∧
    (getVocabularyEntries db).Perm db.vocab ∧
    List.Sorted grammarNewestLe (getGrammarTopics db) ∧
    (getGrammarTopics db).Perm db.grammar ∧
    List.Sorted questionIdLe (getQuestionsForStory db storyId) ∧
    (getQuestionsForStory db storyId).Perm
      (db.questions.filter (fun q => q.storyId == storyId)) :=
  ⟨List.sorted_insertionSort storyNewestLe db.stories,
   List.perm_insertionSort storyNewestLe db.stories,
   rfl,
   List.sorted_insertionSort vocabNewestLe db.vocab,
   List.perm_insertionSort vocabNewestLe db.vocab,
   List.sorted_insertionSort grammarNewestLe db.grammar,
   List.perm_insertionSort grammarNewestLe db.grammar,
   List.sorted_insertionSort questionIdLe _,
   List.perm_insertionSort questionIdLe _⟩

theorem listingOrder_counterexample :
    getQuestionsForStory dbTwoQuestions 1 ≠ specQuestionsNewestFirst dbTwoQuestions 1 ∧
    (getQuestionsForStory dbTwoQuestions 1).map (fun r => r.id) = [1, 2] ∧
    (specQuestionsNewestFirst dbTwoQuestions 1).map (fun r => r.id) = [2, 1] := by
  refine ⟨by decide, by decide, by decide⟩

/-- C7: with a non-empty email and password, a login against a store where
    the email is absent and a login against a store where the email exists
    but the password comparison fails produce the same response: the login
    form with the identical error string, so the text distinguishes nothing. -/
theorem loginErrorIndistinguishable
    (users1 users2 : List UserRow) (compare1 compare2 : String → String → Bool)
    (sess1 sess2 : Session) (email password : String) (u : UserRow)
    (hne : (normalizeEmail email == "") = false) (hpw : (password == "") = false)
    (h1 : findUserByEmail users1 (normalizeEmail email) = none)
    (h2 : findUserByEmail users2 (normalizeEmail email) = some u)
    (h2c : compare2 password u.passwordHash = false) :
    (postLogin users1 compare1 sess1 email password).1 =
      LoginResp.render 400 "Email or password is incorrect." email ∧
    (postLogin users2 compare2 sess2 email password).1 =
      LoginResp.render 400 "Email or password is incorrect." email := by
  constructor
  · simp [postLogin, hne, hpw, h1]
  · simp [postLogin, hne, hpw, h2, h2c]

theorem loginErrorIndistinguishable_witness :
    (postLogin [] (fun _ _ => false) { user := none, returnTo := none }
        "x@y.z" "pw").1 =
      LoginResp.render 400 "Email or password is incorrect." "x@y.z" ∧
    (postLogin [{ id := 1, email := "x@y.z", passwordHash := "h" }] (fun _ _ => false)
        { user := none, returnTo := none } "x@y.z" "pw").1 =
      LoginResp.render 400 "Email or password is incorrect." "x@y.z" :=
  loginErrorIndistinguishable [] [{ id := 1, email := "x@y.z", passwordHash := "h" }]
    (fun _ _ => false) (fun _ _ => false)
    { user := none, returnTo := none } { user := none, returnTo := none }
    "x@y.z" "pw" { id := 1, email := "x@y.z", passwordHash := "h" }
    (by decide) (by decide) (by decide) (by decide) (by decide)

/-- C8 (amended): when story-submission validation fails, the form is
    re-rendered with status 400 and the specific error message and the
    database is untouched; the repopulated values are the handler's
    trimmed/normalized `values` object (title, summary, body trimmed, level
    uppercased, questions as parsed) — for an upload rejection, the blank
    defaults — not the user's original untrimmed input. -/
theorem validationRerendersForm (db : DB) (now uid : Nat)
    (body files : List (String × String)) (oracle : Nat → Bool) :
    (∀ msg : String,
        postStories db now uid (some msg) body files oracle =
          (HResp.render 400 msg emptyStoryValues, db)) ∧
    (∀ msg : String, storyFieldsError (storyValues body files) = some msg →
        postStories db now uid none body files oracle =
          (HResp.render 400 msg (storyValues body files), db)) :=
  ⟨fun _ => rfl, fun _ h => postStories_fields_err db now uid oracle h⟩

theorem validationRerendersForm_witness :
    postStories dbEmpty 0 1 none
        [("title", "  Der Mond  "), ("level", "A1"), ("summary", ""), ("body", "B")]
        [] (fun _ => false) =
      (HResp.render 400 "Please fill in all required fields."
        (storyValues
          [("title", "  Der Mond  "), ("level", "A1"), ("summary", ""), ("body", "B")]
          []),
       dbEmpty) :=
  (validationRerendersForm dbEmpty 0 1 _ [] (fun _ => false)).2 _ (by decide)

theorem validationRerendersForm_counterexample :
    ((postStories dbEmpty 0 1 none
        [("title", "  Der Mond  "), ("level", "A1"), ("summary", ""), ("body", "B")]
        [] (fun _ => false)).1.valuesOf.map (fun v => v.title)) = some "Der Mond" ∧
    getField [("title", "  Der Mond  "), ("level", "A1"), ("summary", ""), ("body", "B")]
      "title" = "  Der Mond  " ∧
    ("Der Mond" : String) ≠ "  Der Mond  " :=
  ⟨by decide, by decide, by decide⟩

/-- C9 (amended): each gate's decision is a pure function of the session
    identity (and the admin email) alone; the session identity is never
    changed; the only session write either gate performs is recording the
    requested URL in `returnTo` on the redirect-to-login path. -/
theorem gateDecisionPure :
    (∀ (sess : Session) (url : String),
        ((requireAuth sess url).2).user = sess.user ∧
        ((requireAuth sess url).2 = sess ∨
          (requireAuth sess url).2 = { sess with returnTo := some url }) ∧
        ((requireAdmin sess url).2).user = sess.user ∧
        ((requireAdmin sess url).2 = sess ∨
          (requireAdmin sess url).2 = { sess with returnTo := some url })) ∧
    (∀ (s t : Session) (u u' : String), s.user = t.user →
        (requireAuth s u).1 = (requireAuth t u').1 ∧
        (requireAdmin s u).1 = (requireAdmin t u').1) := by
  constructor
  · intro sess url
    obtain ⟨su, rt⟩ := sess
    cases su with
    | none => exact ⟨rfl, Or.inr rfl, rfl, Or.inr rfl⟩
    | some u0 =>
      refine ⟨rfl, Or.inl rfl, ?_, ?_⟩
      · by_cases hadm : (!(isAdminUser (some u0))) = true
        · simp [requireAdmin, hadm]
        · have hadm' : (!(isAdminUser (some u0))) = false := by simpa using hadm
          simp [requireAdmin, hadm']
      · by_cases hadm : (!(isAdminUser (some u0))) = true
        · left
          simp [requireAdmin, hadm]
        · have hadm' : (!(isAdminUser (some u0))) = false := by simpa using hadm
          left
          simp [requireAdmin, hadm']
  · intro s t u u' h
    obtain ⟨su, srt⟩ := s
    obtain ⟨tu, trt⟩ := t
    simp only at h
    subst h
    cases su with
    | none => exact ⟨rfl, rfl⟩
    | some u0 =>
      refine ⟨rfl, ?_⟩
      by_cases hadm : (!(isAdminUser (some u0))) = true
      · simp [requireAdmin, hadm]
      · have hadm' : (!(isAdminUser (some u0))) = false := by simpa using hadm
        simp [requireAdmin, hadm']

theorem gateDecisionPure_witness :
    (requireAuth { user := none, returnTo := none } "/a").1 =
      (requireAuth { user := none, returnTo := some "/b" } "/c").1 ∧
    (requireAdmin { user := none, returnTo := none } "/a").1 =
      (requireAdmin { user := none, returnTo := some "/b" } "/c").1 :=
  gateDecisionPure.2 { user := none, returnTo := none }
    { user := none, returnTo := some "/b" } "/a" "/c" rfl

theorem gateDecisionPure_counterexample :
    (requireAuth { user := none, returnTo := none } "/stories/new").2 ≠
      { user := none, returnTo := none } := by
  decide
